import Mathlib

/-!
Shallow embedding of `zemen/converters.py`, a Gregorian ↔ Ethiopian calendar
converter that works through Julian Day Numbers (JDN), together with the parts
of Python's `datetime.date` that the module calls: the `date(year, month, day)`
constructor validation, `date.toordinal`, and `date.fromordinal` (whose core is
CPython's `_ord2ymd`).

Python integers are modelled as `Int`.  Python's `//` and `%` are floor
division and floor modulus; every division appearing in the translated code has
a positive constant divisor, and for a positive divisor Lean's `Int` division
and modulus (`Int.ediv` / `Int.emod`, the default `/` and `%` on `Int`) agree
with floor division and floor modulus, so the `/` and `%` notation is used
directly.  The Gregorian ordinal arithmetic only ever runs on
constructor-validated dates (year ≥ 1), so it is carried out on `Nat`.

Every `ValueError` raise site observable through the module is modelled by its
own constructor of `PyErr`; the sites are distinguishable by their message
strings.
-/

/-- The distinct `ValueError`s the code can raise, identified by the message of
the raise site. -/
inductive PyErr where
  /-- `ValueError("Invalid date for Gregorian calendar")` raised by `_greg_to_jdn`. -/
  | invalidDateGregorian
  /-- `ValueError("Invalid Julian Day Number")` raised by `jdn_to_greg` and `_eth_from_jdn`. -/
  | invalidJdn
  /-- `ValueError("ordinal must be >= 1")` raised inside `date.fromordinal`. -/
  | ordinalTooSmall
  /-- `ValueError` raised by the `date` constructor's field validation
  (for example `"year 10000 is out of range"`). -/
  | dateFieldsInvalid
  deriving DecidableEq

/-! ## The `datetime.date` fragment used by the module -/

/-- `datetime._is_leap` (also `calendar.isleap`):
`year % 4 == 0 and (year % 100 != 0 or year % 400 == 0)`. -/
def _is_leap (y : Nat) : Bool :=
  y % 4 == 0 && (y % 100 != 0 || y % 400 == 0)

/-- `datetime._DAYS_IN_MONTH[m]` for `1 ≤ m ≤ 12`; the sentinel at index 0 is
never read, out-of-table indices return 0. -/
def _DAYS_IN_MONTH : Nat → Nat
  | 1 => 31 | 2 => 28 | 3 => 31 | 4 => 30 | 5 => 31 | 6 => 30
  | 7 => 31 | 8 => 31 | 9 => 30 | 10 => 31 | 11 => 30 | 12 => 31
  | _ => 0

/-- `datetime._DAYS_BEFORE_MONTH[m]` for `1 ≤ m ≤ 12` (cumulative days before
month `m` in a non-leap year); out-of-table indices return 0. -/
def _DAYS_BEFORE_MONTH : Nat → Nat
  | 1 => 0 | 2 => 31 | 3 => 59 | 4 => 90 | 5 => 120 | 6 => 151
  | 7 => 181 | 8 => 212 | 9 => 243 | 10 => 273 | 11 => 304 | 12 => 334
  | _ => 0

/-- `datetime._days_in_month(year, month)` with the leap test abstracted to a
Boolean flag, so that month/day facts become finitely checkable. -/
def dimB (L : Bool) (m : Nat) : Nat :=
  if m = 2 ∧ L = true then 29 else _DAYS_IN_MONTH m

/-- `datetime._days_in_month(year, month) = 29 if month == 2 and _is_leap(year)
else _DAYS_IN_MONTH[month]`. -/
def _days_in_month (y m : Nat) : Nat := dimB (_is_leap y) m

/-- `datetime._days_before_month(year, month)` with the leap test abstracted to
a Boolean flag. -/
def dbmB (L : Bool) (m : Nat) : Nat :=
  _DAYS_BEFORE_MONTH m + if 2 < m ∧ L = true then 1 else 0

/-- `datetime._days_before_month(year, month) = _DAYS_BEFORE_MONTH[month] +
(month > 2 and _is_leap(year))`. -/
def _days_before_month (y m : Nat) : Nat := dbmB (_is_leap y) m

/-- `datetime._days_before_year(year)`: with `y = year - 1`, returns
`y*365 + y//4 - y//100 + y//400`. -/
def _days_before_year (y : Nat) : Nat :=
  365 * (y - 1) + (y - 1) / 4 - (y - 1) / 100 + (y - 1) / 400

/-- `datetime._ymd2ord(year, month, day)` = `date(year, month, day).toordinal()`:
`_days_before_year(year) + _days_before_month(year, month) + day`. -/
def _ymd2ord (y m d : Nat) : Nat :=
  _days_before_year y + _days_before_month y m + d

/-- `datetime._check_date_fields`: the `date` constructor accepts exactly
`MINYEAR = 1 ≤ year ≤ MAXYEAR = 9999`, `1 ≤ month ≤ 12`, and
`1 ≤ day ≤ _days_in_month(year, month)`. -/
def _check_date_fields (y m d : Nat) : Prop :=
  1 ≤ y ∧ y ≤ 9999 ∧ 1 ≤ m ∧ m ≤ 12 ∧ 1 ≤ d ∧ d ≤ _days_in_month y m

instance (y m d : Nat) : Decidable (_check_date_fields y m d) := by
  unfold _check_date_fields; infer_instance

/-- The `date(year, month, day)` constructor validation on Python integers.
A non-positive year already fails the `MINYEAR ≤ year` check, so the `toNat`
coercions below are only reached on faithful values. -/
def date_ctor_valid (y m d : Int) : Prop :=
  1 ≤ y ∧ y ≤ 9999 ∧ 1 ≤ m ∧ m ≤ 12 ∧ 1 ≤ d ∧
    d ≤ (_days_in_month y.toNat m.toNat : Int)

instance (y m d : Int) : Decidable (date_ctor_valid y m d) := by
  unfold date_ctor_valid; infer_instance

/-- The month/day extraction at the end of CPython's `_ord2ymd`, on the day
offset `o` (0-based) within a year with leap flag `leap`:
`month = (o + 50) >> 5`, then the estimate is corrected downwards by one month
if the days preceding the estimated month exceed `o`. -/
def _ord2ymd_md (leap : Bool) (o : Nat) : Nat × Nat :=
  let month := (o + 50) / 32
  let preceding := _DAYS_BEFORE_MONTH month + if 2 < month ∧ leap = true then 1 else 0
  if preceding > o then
    let month' := month - 1
    let preceding' := preceding -
      (_DAYS_IN_MONTH month' + if month' = 2 ∧ leap = true then 1 else 0)
    (month', o - preceding' + 1)
  else
    (month, o - preceding + 1)

/-- CPython's `_ord2ymd(n)`: peel off 400-, 100-, 4- and 1-year cycles from
`n - 1`, special-casing the last day of a 4-year or 400-year cycle
(`n1 == 4 or n100 == 4`), then extract month and day. -/
def _ord2ymd (n : Nat) : Nat × Nat × Nat :=
  let n' := n - 1
  let n400 := n' / 146097
  let r1 := n' % 146097
  let n100 := r1 / 36524
  let r2 := r1 % 36524
  let n4 := r2 / 1461
  let r3 := r2 % 1461
  let n1 := r3 / 365
  let r4 := r3 % 365
  let year := 400 * n400 + 100 * n100 + 4 * n4 + n1 + 1
  if n1 = 4 ∨ n100 = 4 then
    (year - 1, 12, 31)
  else
    let leap := n1 == 3 && (n4 != 24 || n100 == 3)
    let md := _ord2ymd_md leap r4
    (year, md.1, md.2)

/-- `date.fromordinal(n)`: rejects `n < 1` with `"ordinal must be >= 1"`, then
runs `_ord2ymd` and builds a `date`, whose constructor validation rejects
out-of-range fields (in particular a year beyond 9999). -/
def date_fromordinal (n : Nat) : Except PyErr (Nat × Nat × Nat) :=
  if n < 1 then .error .ordinalTooSmall
  else
    let ymd := _ord2ymd n
    if _check_date_fields ymd.1 ymd.2.1 ymd.2.2 then .ok ymd
    else .error .dateFieldsInvalid

/-! ## `zemen/converters.py` -/

/-- `_greg_to_jdn(year, month, day)`: builds `date(year, month, day)`,
re-raising any constructor `ValueError` as
`ValueError("Invalid date for Gregorian calendar")`, then returns
`date(year, month, day).toordinal() + 1721425`. -/
def _greg_to_jdn (year month day : Int) : Except PyErr Int :=
  if date_ctor_valid year month day then
    .ok ((_ymd2ord year.toNat month.toNat day.toNat : Int) + 1721425)
  else
    .error .invalidDateGregorian

/-- `jdn_to_greg(jdn)`: raises `ValueError("Invalid Julian Day Number")` when
`jdn < 1721425`, otherwise returns `date.fromordinal(jdn - 1721425)`. -/
def jdn_to_greg (jdn : Int) : Except PyErr (Int × Int × Int) :=
  if jdn < 1721425 then .error .invalidJdn
  else
    (date_fromordinal (jdn - 1721425).toNat).map
      (fun ymd => ((ymd.1 : Int), (ymd.2.1 : Int), (ymd.2.2 : Int)))

/-- `_eth_from_jdn(jdn)`: raises `ValueError("Invalid Julian Day Number")` when
`jdn < 1721425`; otherwise, with `JDN_ETH_OFFSET = 1723856`,
`r = (jdn - 1723856) % 1461`, `n = r % 365 + 365 * (r // 1460)`,
`year = 4 * ((jdn - 1723856) // 1461) + r // 365 - r // 1460`,
`month = n // 30 + 1`, `day = n % 30 + 2`. -/
def _eth_from_jdn (jdn : Int) : Except PyErr (Int × Int × Int) :=
  if jdn < 1721425 then .error .invalidJdn
  else
    let r := (jdn - 1723856) % 1461
    let n := r % 365 + 365 * (r / 1460)
    let year := 4 * ((jdn - 1723856) / 1461) + r / 365 - r / 1460
    let month := n / 30 + 1
    let day := n % 30 + 2
    .ok (year, month, day)

/-- `eth_from_greg(year, month, day)`: computes
`jdn = _greg_to_jdn(year, month, day)` (letting its `ValueError` propagate)
and returns `_eth_from_jdn(jdn)`. -/
def eth_from_greg (year month day : Int) : Except PyErr (Int × Int × Int) :=
  match _greg_to_jdn year month day with
  | .error e => .error e
  | .ok jdn => _eth_from_jdn jdn

/-- `eth_to_greg(year, month, day)`: the function body consists only of a
docstring, so the call raises nothing and falls off the end, returning `None`. -/
def eth_to_greg (_year _month _day : Int) : Except PyErr (Option (Int × Int × Int)) :=
  .ok none

/-! ## Basic facts about `_eth_from_jdn` -/

/-- Closed form of `_eth_from_jdn` on accepted inputs. -/
theorem eth_from_jdn_ok (j : Int) (h : 1721425 ≤ j) :
    _eth_from_jdn j = .ok
      (4 * ((j - 1723856) / 1461) + ((j - 1723856) % 1461) / 365 -
         ((j - 1723856) % 1461) / 1460,
       (((j - 1723856) % 1461) % 365 + 365 * (((j - 1723856) % 1461) / 1460)) / 30 + 1,
       (((j - 1723856) % 1461) % 365 + 365 * (((j - 1723856) % 1461) / 1460)) % 30 + 2) := by
  unfold _eth_from_jdn
  rw [if_neg (by omega)]

/-- A successful `_eth_from_jdn` forces its input above the JDN lower bound. -/
theorem eth_from_jdn_ok_bound (jdn y m d : Int)
    (h : _eth_from_jdn jdn = .ok (y, m, d)) : 1721425 ≤ jdn := by
  by_contra hn
  unfold _eth_from_jdn at h
  rw [if_pos (by omega)] at h
  simp at h

/-! ## Claim theorems for the Ethiopian direction -/

/-- Claim C2 as stated is false: at JDN 1725316 the code returns month 13 with
day 7, outside the claimed day range 1–6 for the 13th month. -/
theorem c2_counterexample :
    ¬ (∀ (jdn y m d : Int), _eth_from_jdn jdn = .ok (y, m, d) → m = 13 →
        1 ≤ d ∧ d ≤ 6) := by
  intro h
  have h7 := h 1725316 3 13 7 rfl rfl
  omega

/-- Claim C2, amended: for every accepted JDN the returned month is between 1
and 13 inclusive (month 14 is never returned), and whenever the returned month
is 13 the returned day is between 2 and 7 inclusive. -/
theorem c2_amended :
    ∀ (jdn y m d : Int), _eth_from_jdn jdn = .ok (y, m, d) →
      (1 ≤ m ∧ m ≤ 13) ∧ (m = 13 → 2 ≤ d ∧ d ≤ 7) := by
  intro jdn y m d h
  have hj : (1721425 : Int) ≤ jdn := eth_from_jdn_ok_bound jdn y m d h
  rw [eth_from_jdn_ok jdn hj] at h
  simp only [Except.ok.injEq, Prod.mk.injEq] at h
  obtain ⟨hy, hm, hd⟩ := h
  omega

/-- Witness for the amended C2 at JDN 1725316. -/
theorem c2_amended_witness :
    (1 ≤ (13 : Int) ∧ (13 : Int) ≤ 13) ∧
      ((13 : Int) = 13 → 2 ≤ (7 : Int) ∧ (7 : Int) ≤ 7) :=
  c2_amended 1725316 3 13 7 rfl

/-- Claim C3 as stated is false: `eth_from_greg 2015 9 11` does not return the
Ethiopian triple (2008, 1, 1). -/
theorem c3_counterexample :
    eth_from_greg 2015 9 11 ≠ .ok (2008, 1, 1) := by
  intro h
  rw [show eth_from_greg 2015 9 11 = .ok (2007, 13, 7) from rfl] at h
  simp only [Except.ok.injEq, Prod.mk.injEq] at h
  omega

/-- Claim C3, amended: `eth_from_greg 2015 9 11` returns the Ethiopian triple
(2007, 13, 7). -/
theorem c3_amended : eth_from_greg 2015 9 11 = .ok (2007, 13, 7) := rfl

/-- Claim C4 as stated is false: `jdn_to_greg 1721425` does fail and does not
return a date, but the ValueError raised is `date.fromordinal`'s
`"ordinal must be >= 1"`, not the module's `"Invalid Julian Day Number"` guard,
which fires only for `jdn < 1721425`. -/
theorem c4_counterexample :
    jdn_to_greg 1721425 = .error .ordinalTooSmall ∧
      PyErr.ordinalTooSmall ≠ PyErr.invalidJdn := ⟨rfl, by decide⟩

/-- Claim C4, amended: `jdn_to_greg 1721425` fails without returning a date,
with the ordinal-too-small ValueError raised inside `date.fromordinal`. -/
theorem c4_amended : jdn_to_greg 1721425 = .error .ordinalTooSmall := rfl

/-- Claim C5: `_eth_from_jdn` fails with the "Invalid Julian Day Number" error
exactly when `jdn < 1721425`, and for every `jdn ≥ 1721425` it returns a
(year, month, day) triple without any error. -/
theorem c5_eth_from_jdn_total :
    ∀ jdn : Int,
      (_eth_from_jdn jdn = .error .invalidJdn ↔ jdn < 1721425) ∧
      (1721425 ≤ jdn → ∃ y m d, _eth_from_jdn jdn = .ok (y, m, d)) := by
  intro jdn
  refine ⟨⟨fun h => ?_, fun h => ?_⟩, fun h => ⟨_, _, _, eth_from_jdn_ok jdn h⟩⟩
  · by_contra hn
    rw [eth_from_jdn_ok jdn (by omega)] at h
    simp at h
  · unfold _eth_from_jdn
    rw [if_pos h]

/-- Witness for C5 at JDN 1721424 (rejected) and 1723856 (accepted). -/
theorem c5_witness :
    _eth_from_jdn 1721424 = .error .invalidJdn ∧
      ∃ y m d, _eth_from_jdn 1723856 = .ok (y, m, d) :=
  ⟨(c5_eth_from_jdn_total 1721424).1.mpr (by decide),
   (c5_eth_from_jdn_total 1723856).2 (by decide)⟩

/-- Claim C6: `_greg_to_jdn` validates against real Gregorian calendar rules
including leap years: 2000-02-29 is accepted (with JDN 2451604), while
1900-02-29 and 2023-02-30 are rejected with the "Invalid date for Gregorian
calendar" error. -/
theorem c6_leap_validation :
    _greg_to_jdn 2000 2 29 = .ok 2451604 ∧
    _greg_to_jdn 1900 2 29 = .error .invalidDateGregorian ∧
    _greg_to_jdn 2023 2 30 = .error .invalidDateGregorian := ⟨rfl, rfl, rfl⟩

/-- Claim C7: `eth_from_greg` is exactly the composition of `_eth_from_jdn`
after `_greg_to_jdn`: when the first stage succeeds with some JDN the result is
`_eth_from_jdn` of that JDN, and when the first stage fails its error
propagates unchanged. -/
theorem c7_composition :
    (∀ (y m d jdn : Int), _greg_to_jdn y m d = .ok jdn →
        eth_from_greg y m d = _eth_from_jdn jdn) ∧
    (∀ (y m d : Int) (e : PyErr), _greg_to_jdn y m d = .error e →
        eth_from_greg y m d = .error e) := by
  constructor
  · intro y m d jdn h
    unfold eth_from_greg
    rw [h]
  · intro y m d e h
    unfold eth_from_greg
    rw [h]

/-- Witness for C7: a succeeding composition at 2015-09-11 and a propagated
invalid-date error at year 10000. -/
theorem c7_witness :
    eth_from_greg 2015 9 11 = _eth_from_jdn 2457277 ∧
    eth_from_greg 10000 1 1 = .error .invalidDateGregorian :=
  ⟨c7_composition.1 2015 9 11 2457277 rfl,
   c7_composition.2 10000 1 1 .invalidDateGregorian rfl⟩

/-- Claim C8: for every accepted JDN the returned Ethiopian day lies between 2
and 31 inclusive (so day 1 is never returned), and day 31 is attained, at JDN
1723885. -/
theorem c8_day_range :
    (∀ (jdn y m d : Int), _eth_from_jdn jdn = .ok (y, m, d) → 2 ≤ d ∧ d ≤ 31) ∧
    (∃ jdn y m : Int, 1721425 ≤ jdn ∧ _eth_from_jdn jdn = .ok (y, m, 31)) := by
  constructor
  · intro jdn y m d h
    have hj : (1721425 : Int) ≤ jdn := eth_from_jdn_ok_bound jdn y m d h
    rw [eth_from_jdn_ok jdn hj] at h
    simp only [Except.ok.injEq, Prod.mk.injEq] at h
    obtain ⟨hy, hm, hd⟩ := h
    omega
  · exact ⟨1723885, 0, 1, by decide, rfl⟩

/-- Witness for C8's universal part at JDN 1723885. -/
theorem c8_witness : 2 ≤ (31 : Int) ∧ (31 : Int) ≤ 31 :=
  c8_day_range.1 1723885 0 1 31 rfl

/-- Claim C9: `eth_to_greg` is declared but unimplemented; for every input it
raises no error and returns no Gregorian date (Python returns `None`). -/
theorem c9_unimplemented : ∀ y m d : Int, eth_to_greg y m d = .ok none := by
  intro y m d
  rfl

/-! ## Month-table facts, checked by finite enumeration -/

/-- Days in any month are at most 31. -/
theorem dimB_le_31 : ∀ (L : Bool), ∀ m, m < 13 → dimB L m ≤ 31 := by
  intro L
  cases L <;> decide

/-- The day offset of a valid month/day within its year is below the year
length (366 in a leap year, 365 otherwise). -/
theorem dbmB_add_day_le : ∀ (L : Bool), ∀ m, m < 13 → ∀ d, d < 32 →
    (1 ≤ m ∧ 1 ≤ d ∧ d ≤ dimB L m) →
    dbmB L m + d ≤ if L then 366 else 365 := by
  intro L
  cases L <;> decide

set_option maxRecDepth 4000 in
/-- The month/day extraction of `_ord2ymd` inverts the day-offset computation
on every valid month/day pair. -/
theorem md_extract_correct : ∀ (L : Bool), ∀ m, m < 13 → ∀ d, d < 32 →
    (1 ≤ m ∧ 1 ≤ d ∧ d ≤ dimB L m) →
    _ord2ymd_md L (dbmB L m + d - 1) = (m, d) := by
  intro L
  cases L <;> decide

set_option maxRecDepth 4000 in
/-- Day offset 365 within a year only arises for December 31. -/
theorem offset365_unique : ∀ (L : Bool), ∀ m, m < 13 → ∀ d, d < 32 →
    (1 ≤ m ∧ 1 ≤ d ∧ d ≤ dimB L m ∧ dbmB L m + d - 1 = 365) →
    m = 12 ∧ d = 31 := by
  intro L
  cases L <;> decide

set_option maxRecDepth 4000 in
set_option maxHeartbeats 1000000 in
/-- On every in-range day offset, the month/day extraction of `_ord2ymd`
produces a valid month/day pair whose day offset is the input. -/
theorem md_extract_valid : ∀ (L : Bool), ∀ o, o < 366 →
    (L = true ∨ o < 365) →
    1 ≤ (_ord2ymd_md L o).1 ∧ (_ord2ymd_md L o).1 ≤ 12 ∧
    1 ≤ (_ord2ymd_md L o).2 ∧ (_ord2ymd_md L o).2 ≤ dimB L (_ord2ymd_md L o).1 ∧
    dbmB L (_ord2ymd_md L o).1 + (_ord2ymd_md L o).2 - 1 = o := by
  intro L
  cases L <;> decide

/-! ## Year arithmetic -/

/-- Closed form of `_days_before_year` from a mixed-radix decomposition of
`y - 1` into 400-, 100-, 4- and 1-year digits. -/
theorem dby_radix (y a b f g : Nat) (hd : y - 1 = 400 * a + 100 * b + 4 * f + g)
    (h1 : 1 ≤ y) (hb : b ≤ 3) (hf : f ≤ 24) (hg : g ≤ 3) :
    _days_before_year y = 146097 * a + 36524 * b + 1461 * f + 365 * g := by
  unfold _days_before_year
  omega

/-- The leap-year test in terms of the mixed-radix digits of `y - 1`. -/
theorem is_leap_decompose (y a b f g : Nat)
    (hd : y - 1 = 400 * a + 100 * b + 4 * f + g) (hy : 1 ≤ y)
    (hb : b ≤ 3) (hf : f ≤ 24) (hg : g ≤ 3) :
    _is_leap y = (g == 3 && (f != 24 || b == 3)) := by
  rw [Bool.eq_iff_iff]
  simp only [_is_leap, Bool.and_eq_true, beq_iff_eq, Bool.or_eq_true, bne_iff_ne]
  omega

/-- One-year step of the cumulative day count. -/
theorem days_before_year_step (y : Nat) (h : 1 ≤ y) :
    _days_before_year (y + 1) =
      _days_before_year y + (if _is_leap y then 366 else 365) := by
  obtain ⟨a, b, f, g, hd, hb, hf, hg, _⟩ :
      ∃ a b f g, y - 1 = 400 * a + 100 * b + 4 * f + g ∧
        b ≤ 3 ∧ f ≤ 24 ∧ g ≤ 3 ∧ True :=
    ⟨(y - 1) / 400, (y - 1) % 400 / 100, (y - 1) % 400 % 100 / 4,
      (y - 1) % 400 % 100 % 4, by omega, by omega, by omega, by omega, trivial⟩
  have hy := dby_radix y a b f g hd h hb hf hg
  have hleap := is_leap_decompose y a b f g hd h hb hf hg
  rcases Nat.lt_or_ge g 3 with hg2 | hg3
  · -- next year advances the 1-year digit
    have hy1 := dby_radix (y + 1) a b f (g + 1) (by omega) (by omega)
      hb hf (by omega)
    rw [hleap]
    rw [if_neg (by simp only [Bool.and_eq_true, beq_iff_eq, Bool.or_eq_true, bne_iff_ne]; omega)]
    omega
  · have hg3 : g = 3 := by omega
    subst hg3
    rcases Nat.lt_or_ge f 24 with hf2 | hf24
    · -- next year advances the 4-year digit
      have hy1 := dby_radix (y + 1) a b (f + 1) 0 (by omega) (by omega)
        hb (by omega) (by omega)
      rw [hleap]
      rw [if_pos (by
        simp only [Bool.and_eq_true, beq_iff_eq, Bool.or_eq_true, bne_iff_ne]
        exact ⟨trivial, Or.inl (by omega)⟩)]
      omega
    · have hf24 : f = 24 := by omega
      subst hf24
      rcases Nat.lt_or_ge b 3 with hb2 | hb3
      · -- next year advances the 100-year digit
        have hy1 := dby_radix (y + 1) a (b + 1) 0 0 (by omega) (by omega)
          (by omega) (by omega) (by omega)
        rw [hleap]
        rw [if_neg (by simp only [Bool.and_eq_true, beq_iff_eq, Bool.or_eq_true, bne_iff_ne]; omega)]
        omega
      · have hb3 : b = 3 := by omega
        subst hb3
        -- next year advances the 400-year digit
        have hy1 := dby_radix (y + 1) (a + 1) 0 0 0 (by omega) (by omega)
          (by omega) (by omega) (by omega)
        rw [hleap]
        rw [if_pos (by decide)]
        omega

/-- The cumulative day count grows along years. -/
theorem days_before_year_succ_le (y : Nat) :
    _days_before_year y ≤ _days_before_year (y + 1) := by
  unfold _days_before_year
  omega

/-- Monotonicity of the cumulative day count. -/
theorem days_before_year_mono (y z : Nat) (h : y ≤ z) :
    _days_before_year y ≤ _days_before_year z := by
  obtain ⟨k, rfl⟩ := Nat.exists_eq_add_of_le h
  clear h
  induction k with
  | zero => exact Nat.le_refl _
  | succ k ih => exact Nat.le_trans ih (days_before_year_succ_le (y + k))

/-- Mixed-radix decomposition of a year `y ≥ 1` into 400-, 100-, 4- and 1-year
digits of `y - 1`, together with the induced closed form of
`_days_before_year y`. -/
theorem days_before_year_decompose (y : Nat) (h : 1 ≤ y) :
    ∃ a b f g, y - 1 = 400 * a + 100 * b + 4 * f + g ∧
      b ≤ 3 ∧ f ≤ 24 ∧ g ≤ 3 ∧
      _days_before_year y = 146097 * a + 36524 * b + 1461 * f + 365 * g := by
  refine ⟨(y - 1) / 400, (y - 1) % 400 / 100, (y - 1) % 400 % 100 / 4,
    (y - 1) % 400 % 100 % 4, ?_, ?_, ?_, ?_, ?_⟩
  · omega
  · omega
  · omega
  · omega
  · unfold _days_before_year
    omega

/-! ## Computing `_ord2ymd` on mixed-radix inputs -/

/-- `_ord2ymd` on an in-year offset `o ≤ 364`: the divmod cascade recovers the
year digits and hands `o` to the month/day extraction. -/
theorem ord2ymd_main (a b f g o : Nat) (hb : b ≤ 3) (hf : f ≤ 24) (hg : g ≤ 3)
    (ho : o ≤ 364) :
    _ord2ymd (146097 * a + 36524 * b + 1461 * f + 365 * g + o + 1) =
      (400 * a + 100 * b + 4 * f + g + 1,
       _ord2ymd_md (g == 3 && (f != 24 || b == 3)) o) := by
  simp only [_ord2ymd]
  have e0 : 146097 * a + 36524 * b + 1461 * f + 365 * g + o + 1 - 1 =
      146097 * a + 36524 * b + 1461 * f + 365 * g + o := by omega
  rw [e0]
  have e1 : (146097 * a + 36524 * b + 1461 * f + 365 * g + o) / 146097 = a := by omega
  have e2 : (146097 * a + 36524 * b + 1461 * f + 365 * g + o) % 146097 =
      36524 * b + 1461 * f + 365 * g + o := by omega
  rw [e1, e2]
  have e3 : (36524 * b + 1461 * f + 365 * g + o) / 36524 = b := by omega
  have e4 : (36524 * b + 1461 * f + 365 * g + o) % 36524 =
      1461 * f + 365 * g + o := by omega
  rw [e3, e4]
  have e5 : (1461 * f + 365 * g + o) / 1461 = f := by omega
  have e6 : (1461 * f + 365 * g + o) % 1461 = 365 * g + o := by omega
  rw [e5, e6]
  have e7 : (365 * g + o) / 365 = g := by omega
  have e8 : (365 * g + o) % 365 = o := by omega
  rw [e7, e8]
  rw [if_neg (by omega)]

/-- `_ord2ymd` on the offset of December 31 of a leap year that closes a 4-year
cycle (but not a 100-year block): the `n1 = 4` special case. -/
theorem ord2ymd_n1_4 (a b f : Nat) (hb : b ≤ 3) (hf : f ≤ 23) :
    _ord2ymd (146097 * a + 36524 * b + 1461 * f + 1460 + 1) =
      (400 * a + 100 * b + 4 * f + 4, 12, 31) := by
  simp only [_ord2ymd]
  have e0 : 146097 * a + 36524 * b + 1461 * f + 1460 + 1 - 1 =
      146097 * a + 36524 * b + 1461 * f + 1460 := by omega
  rw [e0]
  have e1 : (146097 * a + 36524 * b + 1461 * f + 1460) / 146097 = a := by omega
  have e2 : (146097 * a + 36524 * b + 1461 * f + 1460) % 146097 =
      36524 * b + 1461 * f + 1460 := by omega
  rw [e1, e2]
  have e3 : (36524 * b + 1461 * f + 1460) / 36524 = b := by omega
  have e4 : (36524 * b + 1461 * f + 1460) % 36524 = 1461 * f + 1460 := by omega
  rw [e3, e4]
  have e5 : (1461 * f + 1460) / 1461 = f := by omega
  have e6 : (1461 * f + 1460) % 1461 = 1460 := by omega
  rw [e5, e6]
  have e7 : (1460 : Nat) / 365 = 4 := by decide
  rw [e7]
  rw [if_pos (Or.inl rfl)]
  have e8 : 400 * a + 100 * b + 4 * f + 4 + 1 - 1 = 400 * a + 100 * b + 4 * f + 4 := by
    omega
  rw [e8]

/-- `_ord2ymd` on the offset of December 31 of a year that closes a 400-year
cycle: the `n100 = 4` special case. -/
theorem ord2ymd_n100_4 (a : Nat) :
    _ord2ymd (146097 * a + 146096 + 1) = (400 * a + 400, 12, 31) := by
  simp only [_ord2ymd]
  have e0 : 146097 * a + 146096 + 1 - 1 = 146097 * a + 146096 := by omega
  rw [e0]
  have e1 : (146097 * a + 146096) / 146097 = a := by omega
  have e2 : (146097 * a + 146096) % 146097 = 146096 := by omega
  rw [e1, e2]
  have e3 : (146096 : Nat) / 36524 = 4 := by decide
  have e4 : (146096 : Nat) % 36524 = 0 := by decide
  rw [e3, e4]
  rw [if_pos (Or.inr rfl)]
  have e8 : 400 * a + 100 * 4 + 4 * 0 + 0 + 1 - 1 = 400 * a + 400 := by omega
  rw [e8]

/-! ## The forward roundtrip `_ord2ymd ∘ _ymd2ord = id` on valid dates -/

/-- `_ord2ymd` inverts `_ymd2ord` on every constructor-valid date. -/
theorem ord2ymd_ymd2ord (y m d : Nat) (h : _check_date_fields y m d) :
    _ord2ymd (_ymd2ord y m d) = (y, m, d) := by
  obtain ⟨h1, h2, h3, h4, h5, h6⟩ := h
  obtain ⟨a, b, f, g, hd, hb, hf, hg, hby⟩ := days_before_year_decompose y h1
  have hdim : d ≤ dimB (_is_leap y) m := h6
  have hmd : m < 13 := by omega
  have hdd : d < 32 := by
    have := dimB_le_31 (_is_leap y) m hmd
    omega
  have hsum := dbmB_add_day_le (_is_leap y) m hmd d hdd ⟨h3, h5, hdim⟩
  have hleap := is_leap_decompose y a b f g hd h1 hb hf hg
  by_cases ho : dbmB (_is_leap y) m + d ≤ 365
  · -- the in-year offset is at most 364
    have hn : _ymd2ord y m d = 146097 * a + 36524 * b + 1461 * f + 365 * g +
        (dbmB (_is_leap y) m + d - 1) + 1 := by
      unfold _ymd2ord _days_before_month
      omega
    rw [hn, ord2ymd_main a b f g (dbmB (_is_leap y) m + d - 1) hb hf hg (by omega)]
    rw [← hleap]
    rw [md_extract_correct (_is_leap y) m hmd d hdd ⟨h3, h5, hdim⟩]
    have hyv : 400 * a + 100 * b + 4 * f + g + 1 = y := by omega
    rw [hyv]
  · -- offset 365: December 31 of a leap year
    have hLtrue : _is_leap y = true := by
      cases hLv : _is_leap y
      · rw [hLv] at hsum ho
        simp at hsum
        omega
      · rfl
    have h366 : dbmB (_is_leap y) m + d = 366 := by
      rw [hLtrue] at hsum ho ⊢
      simp at hsum
      omega
    obtain ⟨hm12, hd31⟩ :=
      offset365_unique (_is_leap y) m hmd d hdd ⟨h3, h5, hdim, by omega⟩
    have hRt : (g == 3 && (f != 24 || b == 3)) = true := by
      rw [← hleap]
      exact hLtrue
    simp only [Bool.and_eq_true, beq_iff_eq, Bool.or_eq_true, bne_iff_ne] at hRt
    obtain ⟨hg3, hfb⟩ := hRt
    by_cases hcase : f = 24 ∧ b = 3
    · -- closes a 400-year cycle
      have hn : _ymd2ord y m d = 146097 * a + 146096 + 1 := by
        unfold _ymd2ord _days_before_month
        omega
      rw [hn, ord2ymd_n100_4 a]
      rw [hm12, hd31]
      have hyv : 400 * a + 400 = y := by omega
      rw [hyv]
    · -- closes a 4-year cycle only
      have hf23 : f ≤ 23 := by
        rcases hfb with hne | hb3
        · omega
        · omega
      have hn : _ymd2ord y m d = 146097 * a + 36524 * b + 1461 * f + 1460 + 1 := by
        unfold _ymd2ord _days_before_month
        omega
      rw [hn, ord2ymd_n1_4 a b f hb hf23]
      rw [hm12, hd31]
      have hyv : 400 * a + 100 * b + 4 * f + 4 = y := by omega
      rw [hyv]

/-! ## Ordinal bounds and surjectivity -/

/-- A valid date has ordinal at least 1. -/
theorem ymd2ord_lower (y m d : Nat) (h : _check_date_fields y m d) :
    1 ≤ _ymd2ord y m d := by
  obtain ⟨h1, h2, h3, h4, h5, h6⟩ := h
  unfold _ymd2ord
  omega

/-- A valid date's ordinal does not exceed the day count before the next
year. -/
theorem ymd2ord_upper (y m d : Nat) (h : _check_date_fields y m d) :
    _ymd2ord y m d ≤ _days_before_year (y + 1) := by
  obtain ⟨h1, h2, h3, h4, h5, h6⟩ := h
  have hdim : d ≤ dimB (_is_leap y) m := h6
  have hmd : m < 13 := by omega
  have hdd : d < 32 := by
    have := dimB_le_31 (_is_leap y) m hmd
    omega
  have hsum := dbmB_add_day_le (_is_leap y) m hmd d hdd ⟨h3, h5, hdim⟩
  have hstep := days_before_year_step y h1
  unfold _ymd2ord _days_before_month
  cases hLv : _is_leap y
  · rw [hLv] at hsum hstep
    simp at hsum hstep
    omega
  · rw [hLv] at hsum hstep
    simp at hsum hstep
    omega

/-- The day count before year 10000 (the largest supported ordinal). -/
theorem days_before_year_10000 : _days_before_year 10000 = 3652059 := by
  unfold _days_before_year
  norm_num

/-- A valid date's ordinal is at most 3652059, the ordinal of 9999-12-31. -/
theorem ymd2ord_le_max (y m d : Nat) (h : _check_date_fields y m d) :
    _ymd2ord y m d ≤ 3652059 := by
  have h1 := ymd2ord_upper y m d h
  have h2 : y + 1 ≤ 10000 := by
    obtain ⟨_, hy, _⟩ := h
    omega
  have h3 := days_before_year_mono (y + 1) 10000 h2
  have h4 := days_before_year_10000
  omega

/-- Every ordinal up to a given year bound falls in some year's range. -/
theorem year_find : ∀ Y : Nat, ∀ n, 1 ≤ n → n ≤ _days_before_year (Y + 1) →
    ∃ y, 1 ≤ y ∧ y ≤ Y ∧ _days_before_year y < n ∧ n ≤ _days_before_year (y + 1) := by
  intro Y
  induction Y with
  | zero =>
    intro n h1 h2
    exfalso
    have h0 : _days_before_year (0 + 1) = 0 := by decide
    omega
  | succ Y ih =>
    intro n h1 h2
    by_cases hle : n ≤ _days_before_year (Y + 1)
    · obtain ⟨y, hy1, hy2, hy3, hy4⟩ := ih n h1 hle
      exact ⟨y, hy1, by omega, hy3, hy4⟩
    · refine ⟨Y + 1, by omega, by omega, by omega, h2⟩

/-- Every ordinal in `[1, 3652059]` is the ordinal of some valid date. -/
theorem ord_surjective (n : Nat) (h1 : 1 ≤ n) (h2 : n ≤ 3652059) :
    ∃ y m d, _check_date_fields y m d ∧ _ymd2ord y m d = n := by
  have h10 : _days_before_year (9999 + 1) = 3652059 := by
    unfold _days_before_year
    norm_num
  obtain ⟨y, hy1, hy2, hy3, hy4⟩ := year_find 9999 n h1 (by omega)
  have hstep := days_before_year_step y hy1
  have hoB : n - _days_before_year y - 1 < 366 ∧
      (_is_leap y = true ∨ n - _days_before_year y - 1 < 365) := by
    cases hLv : _is_leap y
    · rw [hLv] at hstep
      simp at hstep
      exact ⟨by omega, Or.inr (by omega)⟩
    · rw [hLv] at hstep
      simp at hstep
      exact ⟨by omega, Or.inl rfl⟩
  obtain ⟨ho366, hoL⟩ := hoB
  obtain ⟨e1, e2, e3, e4, e5⟩ :=
    md_extract_valid (_is_leap y) (n - _days_before_year y - 1) ho366 hoL
  refine ⟨y, (_ord2ymd_md (_is_leap y) (n - _days_before_year y - 1)).1,
    (_ord2ymd_md (_is_leap y) (n - _days_before_year y - 1)).2,
    ⟨hy1, by omega, e1, e2, e3, e4⟩, ?_⟩
  unfold _ymd2ord _days_before_month
  omega

/-- On every in-range ordinal, `_ord2ymd` produces a valid date whose ordinal
is the input: the backward roundtrip. -/
theorem fromordinal_fields (n : Nat) (h1 : 1 ≤ n) (h2 : n ≤ 3652059) :
    _check_date_fields (_ord2ymd n).1 (_ord2ymd n).2.1 (_ord2ymd n).2.2 ∧
    _ymd2ord (_ord2ymd n).1 (_ord2ymd n).2.1 (_ord2ymd n).2.2 = n := by
  obtain ⟨y, m, d, hc, he⟩ := ord_surjective n h1 h2
  have hr := ord2ymd_ymd2ord y m d hc
  rw [he] at hr
  rw [hr]
  exact ⟨hc, he⟩

/-! ## Behaviour of `_ord2ymd` beyond the supported range -/

/-- Shifting the ordinal by one 400-year cycle shifts the year by 400 and
leaves month and day unchanged. -/
theorem ord2ymd_shift (k : Nat) :
    _ord2ymd (k + 1 + 146097) =
      ((_ord2ymd (k + 1)).1 + 400, (_ord2ymd (k + 1)).2) := by
  simp only [_ord2ymd]
  have e0 : k + 1 + 146097 - 1 = k + 146097 := by omega
  have e1 : k + 1 - 1 = k := by omega
  rw [e0, e1]
  have e2 : (k + 146097) / 146097 = k / 146097 + 1 := by omega
  have e3 : (k + 146097) % 146097 = k % 146097 := by omega
  rw [e2, e3]
  by_cases hc : k % 146097 % 36524 % 1461 / 365 = 4 ∨ k % 146097 / 36524 = 4
  · rw [if_pos hc, if_pos hc]
    dsimp only
    simp only [Prod.mk.injEq, and_true]
    omega
  · rw [if_neg hc, if_neg hc]
    dsimp only
    simp only [Prod.mk.injEq, and_true]
    omega

/-- Iterated 400-year shifts of `_ord2ymd`. -/
theorem ord2ymd_iterate_shift (t k : Nat) :
    _ord2ymd (k + 1 + 146097 * t) =
      ((_ord2ymd (k + 1)).1 + 400 * t, (_ord2ymd (k + 1)).2) := by
  induction t with
  | zero => simp
  | succ t ih =>
    have e : k + 1 + 146097 * (t + 1) = (k + 146097 * t) + 1 + 146097 := by ring
    rw [e, ord2ymd_shift (k + 146097 * t)]
    have e2 : k + 146097 * t + 1 = k + 1 + 146097 * t := by ring
    rw [e2, ih]
    dsimp only
    simp only [Prod.mk.injEq, and_true]
    ring

/-- On the last 400-year block of the supported range, the recovered year is at
least 9600. -/
theorem ord2ymd_year_lb (n : Nat) (h1 : 3505963 ≤ n) (h2 : n ≤ 3652059) :
    9600 ≤ (_ord2ymd n).1 := by
  obtain ⟨hc, he⟩ := fromordinal_fields n (by omega) h2
  by_contra hlt
  push_neg at hlt
  have hup := ymd2ord_upper _ _ _ hc
  have hmono := days_before_year_mono ((_ord2ymd n).1 + 1) 9600 (by omega)
  have h96 : _days_before_year 9600 = 3505962 := by
    unfold _days_before_year
    norm_num
  omega

/-- Beyond ordinal 3652059 the recovered year always exceeds 9999. -/
theorem ord2ymd_year_big (n : Nat) (h : 3652059 < n) : 9999 < (_ord2ymd n).1 := by
  have hkey : 1 ≤ (n - 3505963) / 146097 ∧
      3505963 ≤ n - 146097 * ((n - 3505963) / 146097) ∧
      n - 146097 * ((n - 3505963) / 146097) ≤ 3652059 ∧
      n = (n - 146097 * ((n - 3505963) / 146097) - 1) + 1 +
        146097 * ((n - 3505963) / 146097) := by
    refine ⟨?_, ?_, ?_, ?_⟩ <;> omega
  obtain ⟨ht1, hn1, hn2, hne⟩ := hkey
  rw [hne, ord2ymd_iterate_shift]
  dsimp only
  have hlb := ord2ymd_year_lb (n - 146097 * ((n - 3505963) / 146097) - 1 + 1)
    (by omega) (by omega)
  omega

/-! ## Claim theorems for the Gregorian direction -/

/-- Claim C1: `_greg_to_jdn` and `jdn_to_greg` are exact two-sided inverses.
For every constructor-valid Gregorian triple (the code's notion of a valid
date, which entails year ≥ 1), converting to a JDN and back returns the same
triple; and whenever `jdn_to_greg` succeeds, `_greg_to_jdn` on the returned
date gives back the same JDN. -/
theorem c1_roundtrip :
    (∀ y m d : Int, date_ctor_valid y m d →
      ∃ jdn, _greg_to_jdn y m d = .ok jdn ∧ jdn_to_greg jdn = .ok (y, m, d)) ∧
    (∀ jdn y m d : Int, jdn_to_greg jdn = .ok (y, m, d) →
      _greg_to_jdn y m d = .ok jdn) := by
  constructor
  · intro y m d h
    obtain ⟨h1, h2, h3, h4, h5, h6⟩ := h
    have hch : _check_date_fields y.toNat m.toNat d.toNat :=
      ⟨by omega, by omega, by omega, by omega, by omega, by omega⟩
    have hcy : y = (y.toNat : Int) := by omega
    have hcm : m = (m.toNat : Int) := by omega
    have hcd : d = (d.toNat : Int) := by omega
    refine ⟨(_ymd2ord y.toNat m.toNat d.toNat : Int) + 1721425, ?_, ?_⟩
    · unfold _greg_to_jdn
      rw [if_pos ⟨h1, h2, h3, h4, h5, h6⟩]
    · have hlo := ymd2ord_lower _ _ _ hch
      have hhi := ymd2ord_le_max _ _ _ hch
      unfold jdn_to_greg
      rw [if_neg (by omega)]
      have hn : ((_ymd2ord y.toNat m.toNat d.toNat : Int) + 1721425 - 1721425).toNat
          = _ymd2ord y.toNat m.toNat d.toNat := by omega
      rw [hn]
      simp only [date_fromordinal]
      rw [if_neg (by omega)]
      rw [ord2ymd_ymd2ord y.toNat m.toNat d.toNat hch]
      dsimp only
      rw [if_pos hch]
      simp only [Except.map]
      rw [← hcy, ← hcm, ← hcd]
  · intro jdn y m d h
    unfold jdn_to_greg at h
    by_cases hj : jdn < 1721425
    · rw [if_pos hj] at h
      simp at h
    · rw [if_neg hj] at h
      simp only [date_fromordinal] at h
      by_cases hn : (jdn - 1721425).toNat < 1
      · rw [if_pos hn] at h
        simp [Except.map] at h
      · rw [if_neg hn] at h
        obtain ⟨⟨Y, M, D⟩, hT⟩ :
            ∃ p : Nat × Nat × Nat, _ord2ymd (jdn - 1721425).toNat = p := ⟨_, rfl⟩
        rw [hT] at h
        dsimp only at h
        by_cases hc : _check_date_fields Y M D
        · rw [if_pos hc] at h
          simp only [Except.map, Except.ok.injEq, Prod.mk.injEq] at h
          obtain ⟨hy, hm, hd⟩ := h
          have hrange : (jdn - 1721425).toNat ≤ 3652059 := by
            by_contra hbig
            push_neg at hbig
            have hbig2 := ord2ymd_year_big ((jdn - 1721425).toNat) (by omega)
            rw [hT] at hbig2
            dsimp only at hbig2
            obtain ⟨_, hy9, _⟩ := hc
            omega
          have hff := fromordinal_fields ((jdn - 1721425).toNat) (by omega) hrange
          rw [hT] at hff
          dsimp only at hff
          obtain ⟨hcn, hord⟩ := hff
          subst hy
          subst hm
          subst hd
          unfold _greg_to_jdn
          rw [if_pos (by
            obtain ⟨k1, k2, k3, k4, k5, k6⟩ := hcn
            refine ⟨by omega, by omega, by omega, by omega, by omega, ?_⟩
            simp only [Int.toNat_natCast]
            exact_mod_cast k6)]
          simp only [Int.toNat_natCast]
          rw [hord]
          have hback : (((jdn - 1721425).toNat : Int)) + 1721425 = jdn := by omega
          rw [hback]
        · rw [if_neg hc] at h
          simp [Except.map] at h

/-- Witness for C1: the leap day 2004-02-29 survives the roundtrip, and
`jdn_to_greg 1721426 = (1, 1, 1)` maps back to JDN 1721426. -/
theorem c1_witness :
    (∃ jdn, _greg_to_jdn 2004 2 29 = .ok jdn ∧
      jdn_to_greg jdn = .ok (2004, 2, 29)) ∧
    _greg_to_jdn 1 1 1 = .ok 1721426 :=
  ⟨c1_roundtrip.1 2004 2 29 (by decide), c1_roundtrip.2 1721426 1 1 1 rfl⟩

/-- Claim C10: the supported Gregorian range is also bounded above:
`_greg_to_jdn` rejects every year beyond 9999, and `jdn_to_greg` fails on
every JDN beyond 5373484 (the JDN of 9999-12-31), raising the date
constructor's field-validation error. -/
theorem c10_year_bounds :
    (∀ y m d : Int, 9999 < y → _greg_to_jdn y m d = .error .invalidDateGregorian) ∧
    (∀ jdn : Int, 5373484 < jdn → jdn_to_greg jdn = .error .dateFieldsInvalid) := by
  constructor
  · intro y m d hy
    unfold _greg_to_jdn
    rw [if_neg (by
      intro hv
      obtain ⟨_, h2, _⟩ := hv
      omega)]
  · intro jdn hj
    unfold jdn_to_greg
    rw [if_neg (by omega)]
    simp only [date_fromordinal]
    rw [if_neg (by omega)]
    rw [if_neg (by
      intro hc
      have hbig := ord2ymd_year_big ((jdn - 1721425).toNat) (by omega)
      obtain ⟨_, h2, _⟩ := hc
      omega)]
    rfl

/-- Witness for C10 at year 10000 and at JDN 5373485. -/
theorem c10_witness :
    _greg_to_jdn 10000 1 1 = .error .invalidDateGregorian ∧
    jdn_to_greg 5373485 = .error .dateFieldsInvalid :=
  ⟨c10_year_bounds.1 10000 1 1 (by decide), c10_year_bounds.2 5373485 (by decide)⟩
